import Mathlib

/-!
Verification of the go-odata-v2-sdk authenticated-request execution engine.

The definitions below are a shallow embedding of the Go source:
  * `client/client.go` — `SAPClient`, `ExecuteRequest`, `buildRequest`,
    `RefreshCSRFToken`, `isMutatingMethod`;
  * `models/models.go` — `DWrapper.UnmarshalJSON` and the `ODataResponse`
    envelope.

The HTTP transport (go-resty) is modelled as an explicit collaborator: a
state-threading function from requests to either a response or a
transport-level error, exactly the interface the Go code consumes
(`req.Execute`, `req.Head`, `req.Get`).  Executions additionally record a
trace of transport events so that counting claims (number of dispatches,
number of refresh probes) can be stated.
-/

namespace OData

/-- An HTTP cookie, as much of Go's `http.Cookie` as the client observes. -/
structure Cookie where
  name : String
  value : String
deriving DecidableEq, Repr

/-- Header lists model Go's `http.Header` as ordered name/value pairs. -/
abbrev Headers := List (String × String)

/-- `http.Header.Get`: first value for the name, `""` when absent. -/
def headerGet (hs : Headers) (nm : String) : String :=
  match hs.find? (fun p => p.1 == nm) with
  | some p => p.2
  | none => ""

/-- The response surface the client reads: status, headers, cookies
(resty `Response.StatusCode`, `Response.Header`, `Response.Cookies`). -/
structure Response where
  status : Nat
  headers : Headers
  cookies : List Cookie
deriving DecidableEq, Repr

/-- resty `Response.IsError()`: status code greater than 399. -/
def Response.isError (r : Response) : Bool :=
  r.status > 399

/-- An outgoing request as assembled by `ExecuteRequest`/`RefreshCSRFToken`:
method, url, the explicitly-set headers, the explicitly-attached cookies,
optional body and query parameters. -/
structure Request where
  method : String
  url : String
  headers : Headers
  cookies : List Cookie
  body : Option String
  queryParams : List (String × String)
deriving DecidableEq, Repr

/-- Result of one transport round trip: a response, or a transport-level
error (connection refused, timeout, malformed response). -/
inductive TransportResult where
  | ok (r : Response)
  | err (e : String)
deriving DecidableEq, Repr

/-- The transport collaborator: a state-threading send function.  The state
type `σ` lets a stub answer differently on successive calls (for example
403 on the first dispatch and 200 on the second). -/
structure Transport (σ : Type) where
  send : σ → Request → σ × TransportResult

/-- Trace events: a dispatch of the caller's request, or a CSRF refresh
probe, each paired with the transport's answer. -/
inductive Event where
  | dispatch (req : Request) (result : TransportResult)
  | probe (req : Request) (result : TransportResult)
deriving DecidableEq, Repr

def Event.isDispatch : Event → Bool
  | .dispatch _ _ => true
  | .probe _ _ => false

def Event.isProbe : Event → Bool
  | .dispatch _ _ => false
  | .probe _ _ => true

/-- Number of dispatches of the original request in a trace. -/
def countDispatch (tr : List Event) : Nat :=
  (tr.filter Event.isDispatch).length

/-- Number of refresh probes in a trace. -/
def countProbe (tr : List Event) : Nat :=
  (tr.filter Event.isProbe).length

/-- `client.go` constant `CSRFHeader`. -/
def CSRFHeader : String := "X-CSRF-Token"

/-- `client.go` constant `CSRFValue` (the fetch-probe header value). -/
def CSRFValue : String := "Fetch"

/-- The header value signalling an invalid/required token. -/
def RequiredValue : String := "Required"

/-- The mutable session state of `SAPClient`: the cached CSRF token and the
cookies captured with it (`client.go` lines 21-22).  The transport handle
and base URL are the collaborator, not state. -/
structure SAPClient where
  csrfToken : String
  csrfCookies : List Cookie
deriving DecidableEq, Repr

/-- `NewSAPClient`: token empty, no captured cookies. -/
def initialClient : SAPClient :=
  { csrfToken := "", csrfCookies := [] }

/-- Go's `strings.ToUpper`, modelled per character (the client only ever
compares ASCII method names). -/
def upperString (s : String) : String :=
  String.mk (s.data.map Char.toUpper)

/-- `isMutatingMethod` (`client.go` lines 171-174). -/
def isMutatingMethod (method : String) : Bool :=
  let m := upperString method
  m == "POST" || m == "PUT" || m == "PATCH" || m == "DELETE"

/-- Assemble a request as `ExecuteRequest` does around `buildRequest`:
attach the given cookies (`buildRequest`, lines 129-131 — attaching an
empty list equals not attaching), the body and query parameters (lines
68-73 / 100-105), and the CSRF header when a token is supplied (lines
80-82 / 111). -/
def mkRequest (cookies : List Cookie) (method url : String) (body : Option String)
    (qp : List (String × String)) (tokenHeader : Option String) : Request :=
  { method := method
    url := url
    headers := match tokenHeader with
      | some tk => [(CSRFHeader, tk)]
      | none => []
    cookies := cookies
    body := body
    queryParams := qp }

/-- The first-attempt request of `ExecuteRequest` (lines 67-84): current
cookies, and the current token only when it is non-empty. -/
def firstRequest (c : SAPClient) (method url : String) (body : Option String)
    (qp : List (String × String)) : Request :=
  mkRequest c.csrfCookies method url body qp
    (if c.csrfToken = "" then none else some c.csrfToken)

/-- The retry request of `ExecuteRequest` (lines 99-111): cookies and token
from the freshly refreshed state; the header is set unconditionally. -/
def retryRequest (c : SAPClient) (method url : String) (body : Option String)
    (qp : List (String × String)) : Request :=
  mkRequest c.csrfCookies method url body qp (some c.csrfToken)

/-- The HEAD probe of `RefreshCSRFToken` (lines 141-144): service root `/`
with the `X-CSRF-Token: Fetch` header. -/
def headProbe : Request :=
  { method := "HEAD"
    url := "/"
    headers := [(CSRFHeader, CSRFValue)]
    cookies := []
    body := none
    queryParams := [] }

/-- The GET fallback probe (line 151): same request with method GET. -/
def getProbe : Request :=
  { headProbe with method := "GET" }

/-- The errors `RefreshCSRFToken` can return. -/
inductive RefreshError where
  | transport (e : String)
  | status (code : Nat)
  | missingToken
deriving DecidableEq, Repr

/-- Lines 160-166 of `client.go`: read the token header from the probe
response; error when it is empty, otherwise store token and cookies
together. -/
def storeFromProbe (c : SAPClient) (r : Response) : SAPClient × Option RefreshError :=
  let token := headerGet r.headers CSRFHeader
  if token = "" then (c, some RefreshError.missingToken)
  else ({ csrfToken := token, csrfCookies := r.cookies }, none)

/-- `RefreshCSRFToken` (`client.go` lines 136-169).  Returns the transport
state, the client state after the call (unchanged on every error path),
the error if any, and the trace of probes issued.  The Go control flow:
HEAD `/`; a transport-level error is returned at once (lines 144-147); an
error status falls back to GET `/` (lines 149-158); a usable response has
its token header read and both fields stored together (lines 160-166). -/
def refreshCSRFToken {σ : Type} (t : Transport σ) (s0 : σ) (c : SAPClient) :
    σ × SAPClient × Option RefreshError × List Event :=
  match t.send s0 headProbe with
  | (s1, .err e) =>
      (s1, c, some (RefreshError.transport e), [Event.probe headProbe (.err e)])
  | (s1, .ok r1) =>
      if r1.isError then
        match t.send s1 getProbe with
        | (s2, .err e) =>
            (s2, c, some (RefreshError.transport e),
              [Event.probe headProbe (.ok r1), Event.probe getProbe (.err e)])
        | (s2, .ok r2) =>
            if r2.isError then
              (s2, c, some (RefreshError.status r2.status),
                [Event.probe headProbe (.ok r1), Event.probe getProbe (.ok r2)])
            else
              let sc := storeFromProbe c r2
              (s2, sc.1, sc.2,
                [Event.probe headProbe (.ok r1), Event.probe getProbe (.ok r2)])
      else
        let sc := storeFromProbe c r1
        (s1, sc.1, sc.2, [Event.probe headProbe (.ok r1)])

/-- The outcomes of `ExecuteRequest`: the final response, a transport-level
error, or a refresh failure (wrapped in Go as
"failed to refresh CSRF token: ..."). -/
inductive ExecResult where
  | success (r : Response)
  | transportErr (e : String)
  | refreshErr (e : RefreshError)
deriving DecidableEq, Repr

/-- Line 92 of `client.go`: the response is classified credential-invalid
iff the method is mutating and (status is 403 or the `X-CSRF-Token`
response header equals `Required`). -/
def needsRefresh (method : String) (r : Response) : Bool :=
  isMutatingMethod method &&
    (r.status == 403 || headerGet r.headers CSRFHeader == RequiredValue)

/-- `ExecuteRequest` (`client.go` lines 55-117).  Returns the transport
state, the client state after the call, the result, and the full trace of
transport events.  Control flow: build and dispatch the first request; a
transport error returns immediately (lines 84-87); a credential-invalid
classification triggers one `RefreshCSRFToken` (lines 92-96), whose
failure aborts the call; on refresh success the request is rebuilt with
the new token and cookies and dispatched once more, whose outcome is
returned unconditionally (lines 98-116). -/
def executeRequest {σ : Type} (t : Transport σ) (s0 : σ) (c : SAPClient)
    (method url : String) (body : Option String) (qp : List (String × String)) :
    σ × SAPClient × ExecResult × List Event :=
  let req := firstRequest c method url body qp
  match t.send s0 req with
  | (s1, .err e) =>
      (s1, c, ExecResult.transportErr e, [Event.dispatch req (.err e)])
  | (s1, .ok resp) =>
      if needsRefresh method resp then
        match refreshCSRFToken t s1 c with
        | (s2, c2, some e, probes) =>
            (s2, c2, ExecResult.refreshErr e, Event.dispatch req (.ok resp) :: probes)
        | (s2, c2, none, probes) =>
            let req2 := retryRequest c2 method url body qp
            match t.send s2 req2 with
            | (s3, .err e) =>
                (s3, c2, ExecResult.transportErr e,
                  Event.dispatch req (.ok resp) :: probes ++ [Event.dispatch req2 (.err e)])
            | (s3, .ok resp2) =>
                (s3, c2, ExecResult.success resp2,
                  Event.dispatch req (.ok resp) :: probes ++ [Event.dispatch req2 (.ok resp2)])
      else
        (s1, c, ExecResult.success resp, [Event.dispatch req (.ok resp)])

/-! ### Envelope decoding (`models/models.go`)

Go's `encoding/json` documents are modelled by a small JSON value type;
`json.Unmarshal` into a concrete Go type is modelled by an explicit decode
function for that type.  `DWrapper.UnmarshalJSON` first unmarshals the
wrapper into `map[string]json.RawMessage` (fails unless the document is an
object), then decodes the `results` field if present, else the wrapper
itself. -/

inductive Json where
  | obj (fields : List (String × Json))
  | arr (elems : List Json)
  | str (s : String)
  | num (n : Int)
  | bool (b : Bool)
  | null

/-- Field lookup in a JSON object (first occurrence). -/
def jsonLookup (fields : List (String × Json)) (nm : String) : Option Json :=
  match fields.find? (fun p => p.1 == nm) with
  | some p => some p.2
  | none => none

/-- A decoder for a target Go type: `json.Unmarshal` into that type. -/
abbrev Decoder (T : Type) := Json → Except String T

def errNotMap : String := "json: cannot unmarshal into map[string]json.RawMessage"

def errNotResponse : String := "json: cannot unmarshal into ODataResponse"

def errNotString : String := "json: cannot unmarshal into string"

def errNotEntity : String := "json: cannot unmarshal into Entity"

def errNotSlice : String := "json: cannot unmarshal into slice"

def resultsField : String := "results"

def idField : String := "Id"

def dField : String := "d"

/-- `DWrapper.UnmarshalJSON` (`models.go` lines 22-35): unmarshal the data
into a string-keyed map (error when not an object); when a `results` field
exists decode its value into the target, otherwise decode the whole
wrapper object into the target. -/
def dwrapperUnmarshal {T : Type} (dec : Decoder T) : Decoder T :=
  fun data =>
    match data with
    | Json.obj fields =>
        match jsonLookup fields resultsField with
        | some v => dec v
        | none => dec (Json.obj fields)
    | _ => Except.error errNotMap

/-- `ODataResponse[T]` (`models.go` lines 7-9): the target sits under the
top-level field `d`, decoded via `DWrapper.UnmarshalJSON`; when `d` is
absent the wrapper keeps its zero value `dft`; non-object input fails. -/
def odataResponseUnmarshal {T : Type} (dft : T) (dec : Decoder T) : Decoder T :=
  fun data =>
    match data with
    | Json.obj fields =>
        match jsonLookup fields dField with
        | some v => dwrapperUnmarshal dec v
        | none => Except.ok dft
    | _ => Except.error errNotResponse

/-- A sample entity type with one string field `Id`, as used by the spec's
decode-symmetry property; `json.Unmarshal` into such a struct reads the
`Id` key (zero value when absent) and fails on non-object input or a
non-string value. -/
structure Entity where
  Id : String
deriving DecidableEq, Repr

def decodeEntity : Decoder Entity :=
  fun j =>
    match j with
    | Json.obj fields =>
        match jsonLookup fields idField with
        | some (Json.str s) => Except.ok { Id := s }
        | some _ => Except.error errNotString
        | none => Except.ok { Id := "" }
    | _ => Except.error errNotEntity

/-- `json.Unmarshal` into a slice: requires an array, decodes each
element. -/
def decodeEntityList : Decoder (List Entity) :=
  fun j =>
    match j with
    | Json.arr es => es.mapM decodeEntity
    | _ => Except.error errNotSlice

/-! ### Interleaving model for the session-state locking

`SAPClient.mu` is a `sync.RWMutex`.  The write lock is held by
`RefreshCSRFToken` for the whole probe-and-store sequence, so the store of
`csrfToken` and `csrfCookies` (lines 165-166) is one atomic action with
respect to readers.  A reader building a request holds the read lock twice
in sequence: once inside `buildRequest` to read `csrfCookies` (lines
121-131) and once, separately, to read `csrfToken` (lines 76-78 and
107-109).  Each lock-protected section is an atomic action; actions of
concurrent goroutines interleave between sections. -/

/-- The shared fields guarded by `SAPClient.mu`. -/
structure Shared where
  token : String
  cookies : List Cookie
deriving DecidableEq, Repr

/-- Atomic actions on the shared state: the reader's two read-lock
sections and a refresher's write-lock store. -/
inductive RWAction where
  | readCookies
  | readToken
  | refreshStore (tk : String) (ck : List Cookie)
deriving DecidableEq, Repr

def RWAction.isStore : RWAction → Bool
  | .refreshStore _ _ => true
  | _ => false

/-- What one reader has observed so far: the cookie snapshot from
`buildRequest` and the token snapshot, each `none` until its read ran. -/
structure ReaderObs where
  cookies : Option (List Cookie)
  token : Option String
deriving DecidableEq, Repr

def emptyObs : ReaderObs :=
  { cookies := none, token := none }

/-- One atomic step of the interleaved execution. -/
def rwStep : Shared × ReaderObs → RWAction → Shared × ReaderObs
  | (s, o), .readCookies => (s, { o with cookies := some s.cookies })
  | (s, o), .readToken => (s, { o with token := some s.token })
  | (_, o), .refreshStore tk ck => ({ token := tk, cookies := ck }, o)

/-- Run a schedule (a chosen interleaving of the atomic sections) from an
initial shared state. -/
def rwRun (init : Shared) (sched : List RWAction) : Shared × ReaderObs :=
  sched.foldl rwStep (init, emptyObs)

/-- The reader observed the complete pair of one shared-state value. -/
def consistentPair (o : ReaderObs) (s : Shared) : Prop :=
  o.cookies = some s.cookies ∧ o.token = some s.token

/-! ### Trace-counting helper lemmas -/

@[simp]
theorem isProbe_probe (req : Request) (res : TransportResult) :
    (Event.probe req res).isProbe = true := rfl

@[simp]
theorem isProbe_dispatch (req : Request) (res : TransportResult) :
    (Event.dispatch req res).isProbe = false := rfl

@[simp]
theorem isDispatch_probe (req : Request) (res : TransportResult) :
    (Event.probe req res).isDispatch = false := rfl

@[simp]
theorem isDispatch_dispatch (req : Request) (res : TransportResult) :
    (Event.dispatch req res).isDispatch = true := rfl

@[simp]
theorem countProbe_nil : countProbe [] = 0 := rfl

@[simp]
theorem countDispatch_nil : countDispatch [] = 0 := rfl

@[simp]
theorem countProbe_cons_probe (req : Request) (res : TransportResult) (l : List Event) :
    countProbe (Event.probe req res :: l) = countProbe l + 1 := by
  simp [countProbe, List.filter_cons, Nat.add_comm]

@[simp]
theorem countProbe_cons_dispatch (req : Request) (res : TransportResult) (l : List Event) :
    countProbe (Event.dispatch req res :: l) = countProbe l := by
  simp [countProbe, List.filter_cons]

@[simp]
theorem countDispatch_cons_probe (req : Request) (res : TransportResult) (l : List Event) :
    countDispatch (Event.probe req res :: l) = countDispatch l := by
  simp [countDispatch, List.filter_cons]

@[simp]
theorem countDispatch_cons_dispatch (req : Request) (res : TransportResult) (l : List Event) :
    countDispatch (Event.dispatch req res :: l) = countDispatch l + 1 := by
  simp [countDispatch, List.filter_cons, Nat.add_comm]

@[simp]
theorem countProbe_append (l1 l2 : List Event) :
    countProbe (l1 ++ l2) = countProbe l1 + countProbe l2 := by
  simp [countProbe, List.filter_append]

@[simp]
theorem countDispatch_append (l1 l2 : List Event) :
    countDispatch (l1 ++ l2) = countDispatch l1 + countDispatch l2 := by
  simp [countDispatch, List.filter_append]

/-! ### Case analysis of `RefreshCSRFToken` -/

/-- Exhaustive description of one `RefreshCSRFToken` call: its trace holds
one or two probes and no dispatch of the caller's request, and either it
fails leaving the client state exactly as it was, or it succeeds and the
resulting state carries the (non-empty) token header and the cookies of
the final, non-error probe response — both replaced together. -/
theorem refresh_spec {σ : Type} (t : Transport σ) (s0 : σ) (c : SAPClient) :
    (1 ≤ countProbe (refreshCSRFToken t s0 c).2.2.2 ∧
     countProbe (refreshCSRFToken t s0 c).2.2.2 ≤ 2 ∧
     countDispatch (refreshCSRFToken t s0 c).2.2.2 = 0) ∧
    (((refreshCSRFToken t s0 c).2.2.1.isSome = true ∧ (refreshCSRFToken t s0 c).2.1 = c) ∨
     ((refreshCSRFToken t s0 c).2.2.1 = none ∧
      ∃ req r, (refreshCSRFToken t s0 c).2.2.2.getLast? = some (Event.probe req (TransportResult.ok r)) ∧
        r.isError = false ∧
        headerGet r.headers CSRFHeader ≠ "" ∧
        (refreshCSRFToken t s0 c).2.1 =
          { csrfToken := headerGet r.headers CSRFHeader, csrfCookies := r.cookies })) := by
  rcases h1 : t.send s0 headProbe with ⟨s1, tr1⟩
  cases tr1 with
  | err e =>
      simp [refreshCSRFToken, h1]
  | ok r1 =>
      cases hE : r1.isError with
      | true =>
          rcases h2 : t.send s1 getProbe with ⟨s2, tr2⟩
          cases tr2 with
          | err e =>
              simp [refreshCSRFToken, h1, hE, h2]
          | ok r2 =>
              cases hE2 : r2.isError with
              | true =>
                  simp [refreshCSRFToken, h1, hE, h2, hE2]
              | false =>
                  by_cases hT : headerGet r2.headers CSRFHeader = ""
                  · simp [refreshCSRFToken, h1, hE, h2, hE2, storeFromProbe, hT]
                  · simp only [refreshCSRFToken, h1, hE, h2, hE2, storeFromProbe]
                    refine ⟨?_, Or.inr ⟨?_, getProbe, r2, ?_, hE2, hT, ?_⟩⟩ <;>
                      simp [hT]
      | false =>
          by_cases hT : headerGet r1.headers CSRFHeader = ""
          · simp [refreshCSRFToken, h1, hE, storeFromProbe, hT]
          · simp only [refreshCSRFToken, h1, hE, storeFromProbe]
            refine ⟨?_, Or.inr ⟨?_, headProbe, r1, ?_, hE, hT, ?_⟩⟩ <;>
              simp [hT]

/-! ### Concrete data for witnesses and counterexamples -/

def errConn : String := "connection refused"

def methodPOST : String := "POST"

def urlEntity : String := "/EntitySet"

def tok1 : String := "abc123"

def oneLit : String := "1"

def sessionCookie : Cookie := { name := "SAP_SESSIONID", value := "xyz" }

/-- A transport stub that fails every round trip at the transport level. -/
def failT : Transport Unit :=
  { send := fun s _ => (s, TransportResult.err errConn) }

/-- The spec's collection payload `{"d": {"results": [{"Id": "1"}]}}`. -/
def seqDoc : Json :=
  Json.obj [(dField, Json.obj [(resultsField, Json.arr [Json.obj [(idField, Json.str oneLit)]])])]

/-- The spec's single-entity payload `{"d": {"Id": "1"}}`. -/
def singleDoc : Json :=
  Json.obj [(dField, Json.obj [(idField, Json.str oneLit)])]

/-! ### Claims -/

/-- C7: decoding the envelope inspects the wrapper — a `results` field is
decoded into the target when present, otherwise the wrapper's own
properties are; concretely, the collection payload decodes as a sequence,
the single-entity payload decodes as a single entity with the same `Id`,
and decoding the single-entity wrapper as a sequence fails with a decode
error. -/
theorem c7_envelope_decode :
    (∀ (T : Type) (dec : Decoder T) (fields : List (String × Json)) (v : Json),
        jsonLookup fields resultsField = some v →
        dwrapperUnmarshal dec (Json.obj fields) = dec v) ∧
    (∀ (T : Type) (dec : Decoder T) (fields : List (String × Json)),
        jsonLookup fields resultsField = none →
        dwrapperUnmarshal dec (Json.obj fields) = dec (Json.obj fields)) ∧
    odataResponseUnmarshal [] decodeEntityList seqDoc = Except.ok [{ Id := oneLit }] ∧
    odataResponseUnmarshal { Id := "" } decodeEntity singleDoc = Except.ok { Id := oneLit } ∧
    odataResponseUnmarshal [] decodeEntityList singleDoc = Except.error errNotSlice := by
  refine ⟨?_, ?_, rfl, rfl, rfl⟩
  · intro T dec fields v h
    simp [dwrapperUnmarshal, h]
  · intro T dec fields h
    simp [dwrapperUnmarshal, h]

/-- C7 witness: the two conditional decode rules applied at concrete
wrappers. -/
theorem c7_envelope_decode_witness :
    dwrapperUnmarshal decodeEntity (Json.obj [(resultsField, Json.null)]) = decodeEntity Json.null ∧
    dwrapperUnmarshal decodeEntity (Json.obj [(idField, Json.str oneLit)]) =
      decodeEntity (Json.obj [(idField, Json.str oneLit)]) :=
  ⟨c7_envelope_decode.1 Entity decodeEntity _ _ rfl,
   c7_envelope_decode.2.1 Entity decodeEntity _ rfl⟩

/-- C9: a transport-level failure of the first dispatch is returned to the
caller immediately — no refresh probe is issued and no retry dispatch is
made, and the session state is untouched. -/
theorem c9_transport_error_short_circuits {σ : Type} (t : Transport σ) (s0 : σ) (c : SAPClient)
    (m u : String) (b : Option String) (qp : List (String × String)) (s1 : σ) (e : String)
    (h : t.send s0 (firstRequest c m u b qp) = (s1, TransportResult.err e)) :
    executeRequest t s0 c m u b qp =
      (s1, c, ExecResult.transportErr e,
        [Event.dispatch (firstRequest c m u b qp) (TransportResult.err e)]) ∧
    countProbe (executeRequest t s0 c m u b qp).2.2.2 = 0 ∧
    countDispatch (executeRequest t s0 c m u b qp).2.2.2 = 1 := by
  have hx : executeRequest t s0 c m u b qp =
      (s1, c, ExecResult.transportErr e,
        [Event.dispatch (firstRequest c m u b qp) (TransportResult.err e)]) := by
    simp [executeRequest, h]
  refine ⟨hx, ?_, ?_⟩ <;> rw [hx] <;> simp

/-- C9 witness: the always-failing transport at a concrete POST. -/
theorem c9_transport_error_witness :
    executeRequest failT () initialClient methodPOST urlEntity none [] =
      ((), initialClient, ExecResult.transportErr errConn,
        [Event.dispatch (firstRequest initialClient methodPOST urlEntity none [])
          (TransportResult.err errConn)]) ∧
    countProbe (executeRequest failT () initialClient methodPOST urlEntity none []).2.2.2 = 0 ∧
    countDispatch (executeRequest failT () initialClient methodPOST urlEntity none []).2.2.2 = 1 :=
  c9_transport_error_short_circuits failT () initialClient methodPOST urlEntity none [] () errConn rfl

/-- A transport stub that answers every round trip `200` with no headers
(in particular, no token header). -/
def noTokenT : Transport Unit :=
  { send := fun s _ => (s, TransportResult.ok { status := 200, headers := [], cookies := [] }) }

/-- C8: a refresh probe that yields a non-error response without the
`X-CSRF-Token` header makes `RefreshCSRFToken` return the missing-token
error at once — no further probe is issued and the session state is
untouched.  Both probe positions are covered: the HEAD probe directly,
and the GET fallback after an error-status HEAD. -/
theorem c8_missing_token_header {σ : Type} (t : Transport σ) (s0 : σ) (c : SAPClient) :
    (∀ s1 r1, t.send s0 headProbe = (s1, TransportResult.ok r1) → r1.isError = false →
        headerGet r1.headers CSRFHeader = "" →
        refreshCSRFToken t s0 c =
          (s1, c, some RefreshError.missingToken,
            [Event.probe headProbe (TransportResult.ok r1)])) ∧
    (∀ s1 r1 s2 r2, t.send s0 headProbe = (s1, TransportResult.ok r1) → r1.isError = true →
        t.send s1 getProbe = (s2, TransportResult.ok r2) → r2.isError = false →
        headerGet r2.headers CSRFHeader = "" →
        refreshCSRFToken t s0 c =
          (s2, c, some RefreshError.missingToken,
            [Event.probe headProbe (TransportResult.ok r1),
             Event.probe getProbe (TransportResult.ok r2)])) := by
  constructor
  · intro s1 r1 h1 hE hT
    simp [refreshCSRFToken, h1, hE, storeFromProbe, hT]
  · intro s1 r1 s2 r2 h1 hE h2 hE2 hT
    simp [refreshCSRFToken, h1, hE, h2, hE2, storeFromProbe, hT]

/-- C8 witness: a concrete 200-without-header probe answer. -/
theorem c8_missing_token_witness :
    refreshCSRFToken noTokenT () initialClient =
      ((), initialClient, some RefreshError.missingToken,
        [Event.probe headProbe
          (TransportResult.ok { status := 200, headers := [], cookies := [] })]) :=
  (c8_missing_token_header noTokenT () initialClient).1 ()
    { status := 200, headers := [], cookies := [] } rfl rfl rfl

/-- C5: a failing `RefreshCSRFToken` call leaves the stored
`{csrfToken, csrfCookies}` pair exactly as it was and propagates the
error; a successful call replaces both fields together with the token
header and cookies of its final, non-error probe response. -/
theorem c5_refresh_failure_preserves_state {σ : Type} (t : Transport σ) (s0 : σ) (c : SAPClient) :
    (∀ e, (refreshCSRFToken t s0 c).2.2.1 = some e → (refreshCSRFToken t s0 c).2.1 = c) ∧
    ((refreshCSRFToken t s0 c).2.2.1 = none →
      ∃ req r,
        (refreshCSRFToken t s0 c).2.2.2.getLast? = some (Event.probe req (TransportResult.ok r)) ∧
        r.isError = false ∧
        (refreshCSRFToken t s0 c).2.1 =
          { csrfToken := headerGet r.headers CSRFHeader, csrfCookies := r.cookies }) := by
  rcases refresh_spec t s0 c with ⟨-, h⟩
  rcases h with ⟨hsome, hc⟩ | ⟨hnone, req, r, hl, hE, hT, hc⟩
  · refine ⟨fun e _ => hc, fun hn => ?_⟩
    rw [hn] at hsome
    simp at hsome
  · refine ⟨fun e he => ?_, fun _ => ⟨req, r, hl, hE, hc⟩⟩
    rw [hnone] at he
    simp at he

/-- C5 witness: the failing-transport refresh leaves the initial state. -/
theorem c5_refresh_failure_witness :
    (refreshCSRFToken failT () initialClient).2.1 = initialClient :=
  (c5_refresh_failure_preserves_state failT () initialClient).1
    (RefreshError.transport errConn) rfl

/-- The credential-invalid test of line 92, as a proposition. -/
theorem needsRefresh_iff (m : String) (r : Response) :
    needsRefresh m r = true ↔
      (isMutatingMethod m = true ∧
        (r.status = 403 ∨ headerGet r.headers CSRFHeader = RequiredValue)) := by
  simp [needsRefresh, Bool.and_eq_true, Bool.or_eq_true, beq_iff_eq]

def methodGET : String := "GET"

def resp200 : Response := { status := 200, headers := [], cookies := [] }

/-- C3: given the first dispatch came back with a response, the
refresh-and-retry path (at least one probe, or a second dispatch) is
taken iff the method is state-mutating and the response has status 403 or
carries `X-CSRF-Token: Required`; otherwise the response is returned to
the caller exactly as received, with a single dispatch and untouched
state. -/
theorem c3_credential_invalid_classification {σ : Type} (t : Transport σ) (s0 : σ)
    (c : SAPClient) (m u : String) (b : Option String) (qp : List (String × String))
    (s1 : σ) (resp : Response)
    (h : t.send s0 (firstRequest c m u b qp) = (s1, TransportResult.ok resp)) :
    ((1 ≤ countProbe (executeRequest t s0 c m u b qp).2.2.2 ∨
      2 ≤ countDispatch (executeRequest t s0 c m u b qp).2.2.2) ↔
      (isMutatingMethod m = true ∧
        (resp.status = 403 ∨ headerGet resp.headers CSRFHeader = RequiredValue))) ∧
    (¬(isMutatingMethod m = true ∧
        (resp.status = 403 ∨ headerGet resp.headers CSRFHeader = RequiredValue)) →
      executeRequest t s0 c m u b qp =
        (s1, c, ExecResult.success resp,
          [Event.dispatch (firstRequest c m u b qp) (TransportResult.ok resp)])) := by
  cases hn : needsRefresh m resp with
  | false =>
      have hnot : ¬(isMutatingMethod m = true ∧
          (resp.status = 403 ∨ headerGet resp.headers CSRFHeader = RequiredValue)) := by
        rw [← needsRefresh_iff]
        simp [hn]
      have hx : executeRequest t s0 c m u b qp =
          (s1, c, ExecResult.success resp,
            [Event.dispatch (firstRequest c m u b qp) (TransportResult.ok resp)]) := by
        simp [executeRequest, h, hn]
      refine ⟨?_, fun _ => hx⟩
      rw [hx]
      exact iff_of_false (by simp) hnot
  | true =>
      have hcond := (needsRefresh_iff m resp).mp hn
      rcases hr : refreshCSRFToken t s1 c with ⟨s2, c2, eo, probes⟩
      have hprobes : 1 ≤ countProbe probes := by
        have hs := (refresh_spec t s1 c).1.1
        rw [hr] at hs
        simpa using hs
      cases eo with
      | some e =>
          have hx : executeRequest t s0 c m u b qp =
              (s2, c2, ExecResult.refreshErr e,
                Event.dispatch (firstRequest c m u b qp) (TransportResult.ok resp) :: probes) := by
            simp [executeRequest, h, hn, hr]
          refine ⟨?_, fun hno => absurd hcond hno⟩
          rw [hx]
          exact iff_of_true (Or.inl (by simpa using hprobes)) hcond
      | none =>
          rcases h2 : t.send s2 (retryRequest c2 m u b qp) with ⟨s3, tr3⟩
          cases tr3 with
          | err e =>
              have hx : executeRequest t s0 c m u b qp =
                  (s3, c2, ExecResult.transportErr e,
                    Event.dispatch (firstRequest c m u b qp) (TransportResult.ok resp) ::
                      probes ++ [Event.dispatch (retryRequest c2 m u b qp) (TransportResult.err e)]) := by
                simp [executeRequest, h, hn, hr, h2]
              refine ⟨?_, fun hno => absurd hcond hno⟩
              rw [hx]
              exact iff_of_true (Or.inl (by simp [hprobes])) hcond
          | ok resp2 =>
              have hx : executeRequest t s0 c m u b qp =
                  (s3, c2, ExecResult.success resp2,
                    Event.dispatch (firstRequest c m u b qp) (TransportResult.ok resp) ::
                      probes ++ [Event.dispatch (retryRequest c2 m u b qp) (TransportResult.ok resp2)]) := by
                simp [executeRequest, h, hn, hr, h2]
              refine ⟨?_, fun hno => absurd hcond hno⟩
              rw [hx]
              exact iff_of_true (Or.inl (by simp [hprobes])) hcond

/-- C3 witness: a GET answered 200 is returned as-is with one dispatch. -/
theorem c3_classification_witness :
    executeRequest noTokenT () initialClient methodGET urlEntity none [] =
      ((), initialClient, ExecResult.success resp200,
        [Event.dispatch (firstRequest initialClient methodGET urlEntity none [])
          (TransportResult.ok resp200)]) :=
  (c3_credential_invalid_classification noTokenT () initialClient methodGET urlEntity
    none [] () resp200 rfl).2 (by decide)

def probe200Resp : Response :=
  { status := 200, headers := [(CSRFHeader, tok1)], cookies := [sessionCookie] }

def resp403Required : Response :=
  { status := 403, headers := [(CSRFHeader, RequiredValue)], cookies := [] }

/-- A transport stub that answers every refresh probe `200` with a token
and every other request `403` with `X-CSRF-Token: Required`. -/
def always403T : Transport Unit :=
  { send := fun s r =>
      if r.url = headProbe.url then (s, TransportResult.ok probe200Resp)
      else (s, TransportResult.ok resp403Required) }

/-- C1: against a transport that answers every dispatch of the original
request `403` with `X-CSRF-Token: Required` while the refresh probe
succeeds, `ExecuteRequest` performs exactly one refresh probe sequence
and exactly two dispatches of the original request, then returns the
final error-status response to the caller — never a third dispatch, never
a second refresh. -/
theorem c1_bounded_retry {σ : Type} (t : Transport σ) (s0 : σ) (c : SAPClient)
    (m u : String) (b : Option String) (qp : List (String × String))
    (hmut : isMutatingMethod m = true)
    (hreq : ∀ s r, r.url = u → ∃ s' resp, t.send s r = (s', TransportResult.ok resp) ∧
        resp.status = 403 ∧ headerGet resp.headers CSRFHeader = RequiredValue)
    (hprobe : ∀ s r, r.url = headProbe.url → ∃ s' resp,
        t.send s r = (s', TransportResult.ok resp) ∧ resp.isError = false ∧
        headerGet resp.headers CSRFHeader ≠ "") :
    countDispatch (executeRequest t s0 c m u b qp).2.2.2 = 2 ∧
    countProbe (executeRequest t s0 c m u b qp).2.2.2 = 1 ∧
    ∃ resp, (executeRequest t s0 c m u b qp).2.2.1 = ExecResult.success resp ∧
      resp.status = 403 := by
  obtain ⟨s1, resp, h1, hst, hhd⟩ := hreq s0 (firstRequest c m u b qp) rfl
  have hn : needsRefresh m resp = true := by
    simp [needsRefresh, hmut, hst]
  obtain ⟨s2, presp, hp, hperr, hptok⟩ := hprobe s1 headProbe rfl
  have hrefresh : refreshCSRFToken t s1 c =
      (s2, { csrfToken := headerGet presp.headers CSRFHeader, csrfCookies := presp.cookies },
        none, [Event.probe headProbe (TransportResult.ok presp)]) := by
    simp [refreshCSRFToken, hp, hperr, storeFromProbe, hptok]
  obtain ⟨s3, resp2, h2, hst2, hhd2⟩ := hreq s2
    (retryRequest (SAPClient.mk (headerGet presp.headers CSRFHeader) presp.cookies) m u b qp) rfl
  have hx : executeRequest t s0 c m u b qp =
      (s3, SAPClient.mk (headerGet presp.headers CSRFHeader) presp.cookies,
        ExecResult.success resp2,
        [Event.dispatch (firstRequest c m u b qp) (TransportResult.ok resp),
         Event.probe headProbe (TransportResult.ok presp),
         Event.dispatch (retryRequest (SAPClient.mk (headerGet presp.headers CSRFHeader)
           presp.cookies) m u b qp) (TransportResult.ok resp2)]) := by
    simp [executeRequest, h1, hn, hrefresh, h2]
  rw [hx]
  exact ⟨by simp, by simp, resp2, rfl, hst2⟩

/-- C1 witness: the concrete always-403 transport at a POST. -/
theorem c1_bounded_retry_witness :
    countDispatch (executeRequest always403T () initialClient methodPOST urlEntity none []).2.2.2 = 2 ∧
    countProbe (executeRequest always403T () initialClient methodPOST urlEntity none []).2.2.2 = 1 ∧
    ∃ resp,
      (executeRequest always403T () initialClient methodPOST urlEntity none []).2.2.1 =
        ExecResult.success resp ∧ resp.status = 403 := by
  have hne : urlEntity ≠ headProbe.url := by decide
  exact c1_bounded_retry always403T () initialClient methodPOST urlEntity none []
    (by decide)
    (fun s r h => ⟨s, resp403Required, by simp [always403T, h, hne], rfl, rfl⟩)
    (fun s r h => ⟨s, probe200Resp, by simp [always403T, h], rfl, by decide⟩)

/-- C6: in every execution whose first dispatch is classified
credential-invalid and whose refresh succeeds — whether through the HEAD
probe directly or through the GET fallback — the retry dispatch reuses
the original method, url, body and query parameters, and carries exactly
the token header value of the refresh's final, successful probe response
together with the cookies that response carried. -/
theorem c6_retry_uses_refreshed_credential {σ : Type} (t : Transport σ) (s0 : σ)
    (c : SAPClient) (m u : String) (b : Option String) (qp : List (String × String))
    (s1 : σ) (resp : Response)
    (h1 : t.send s0 (firstRequest c m u b qp) = (s1, TransportResult.ok resp))
    (hn : needsRefresh m resp = true)
    (hok : (refreshCSRFToken t s1 c).2.2.1 = none) :
    ∃ req2 res3 preq presp,
      (executeRequest t s0 c m u b qp).2.2.2 =
        Event.dispatch (firstRequest c m u b qp) (TransportResult.ok resp) ::
          (refreshCSRFToken t s1 c).2.2.2 ++ [Event.dispatch req2 res3] ∧
      (refreshCSRFToken t s1 c).2.2.2.getLast? =
        some (Event.probe preq (TransportResult.ok presp)) ∧
      presp.isError = false ∧
      req2.method = m ∧ req2.url = u ∧ req2.body = b ∧ req2.queryParams = qp ∧
      req2.headers = [(CSRFHeader, headerGet presp.headers CSRFHeader)] ∧
      req2.cookies = presp.cookies := by
  rcases refresh_spec t s1 c with ⟨-, hcases⟩
  rcases hcases with ⟨hsome, -⟩ | ⟨-, preq, presp, hl, hE, hT, hc⟩
  · rw [hok] at hsome
    simp at hsome
  · rcases hr : refreshCSRFToken t s1 c with ⟨s2, c2, eo, probes⟩
    rw [hr] at hok hl hc
    dsimp only at hok hl hc
    subst hok
    subst hc
    rcases h2 : t.send s2 (retryRequest (SAPClient.mk (headerGet presp.headers CSRFHeader)
        presp.cookies) m u b qp) with ⟨s3, tr3⟩
    refine ⟨retryRequest (SAPClient.mk (headerGet presp.headers CSRFHeader)
        presp.cookies) m u b qp, tr3, preq, presp, ?_, hl, hE, rfl, rfl, rfl, rfl, rfl, rfl⟩
    cases tr3 with
    | err e => simp [executeRequest, h1, hn, hr, h2]
    | ok r2 => simp [executeRequest, h1, hn, hr, h2]

/-- A `405 Method Not Allowed` answer for HEAD probes. -/
def resp405head : Response := { status := 405, headers := [], cookies := [] }

/-- A transport stub on which the refresh succeeds only through the GET
fallback: HEAD probes get an error status, GET probes get `200` with a
token, and every other request gets `403`/`Required`. -/
def fallbackT : Transport Unit :=
  { send := fun s r =>
      if r.url = headProbe.url then
        (if r.method = headProbe.method then (s, TransportResult.ok resp405head)
         else (s, TransportResult.ok probe200Resp))
      else (s, TransportResult.ok resp403Required) }

/-- C6 witness: the refresh-and-retry scenario where the refresh succeeds
through the GET fallback. -/
theorem c6_retry_witness :
    ∃ req2 res3 preq presp,
      (executeRequest fallbackT () initialClient methodPOST urlEntity none []).2.2.2 =
        Event.dispatch (firstRequest initialClient methodPOST urlEntity none [])
          (TransportResult.ok resp403Required) ::
          (refreshCSRFToken fallbackT () initialClient).2.2.2 ++
            [Event.dispatch req2 res3] ∧
      (refreshCSRFToken fallbackT () initialClient).2.2.2.getLast? =
        some (Event.probe preq (TransportResult.ok presp)) ∧
      presp.isError = false ∧
      req2.method = methodPOST ∧ req2.url = urlEntity ∧ req2.body = none ∧
      req2.queryParams = [] ∧
      req2.headers = [(CSRFHeader, headerGet presp.headers CSRFHeader)] ∧
      req2.cookies = presp.cookies :=
  c6_retry_uses_refreshed_credential fallbackT () initialClient methodPOST urlEntity none []
    () resp403Required rfl (by decide) (by decide)

/-- A transport stub whose HEAD round trips fail at the transport level
while GET round trips succeed with a token. -/
def headFailT : Transport Unit :=
  { send := fun s r =>
      if r.method = headProbe.method then (s, TransportResult.err errConn)
      else (s, TransportResult.ok probe200Resp) }

/-- A GET-fallback probe event, for counting. -/
def isGetProbe : Event → Bool
  | Event.probe req _ => req.method == getProbe.method
  | Event.dispatch _ _ => false

/-- C2 counterexample: when the HEAD probe fails at the transport level,
`RefreshCSRFToken` returns that error at once — no GET probe is issued
even though the GET round trip would have succeeded with a token.  This
refutes the claim that the GET fallback covers transport-level HEAD
failure. -/
theorem c2_counterexample :
    refreshCSRFToken headFailT () initialClient =
      ((), initialClient, some (RefreshError.transport errConn),
        [Event.probe headProbe (TransportResult.err errConn)]) ∧
    ((refreshCSRFToken headFailT () initialClient).2.2.2.filter isGetProbe).length = 0 ∧
    (headFailT.send () getProbe).2 = TransportResult.ok probe200Resp := by
  exact ⟨rfl, rfl, rfl⟩

/-- C2 (amended): the refresh probe prefers HEAD against the service root;
the GET fallback is issued only when HEAD returns an error status — a
transport-level HEAD failure is returned immediately with no fallback —
and the refresh fails when HEAD fails at the transport level, when both
probes return an error status, or when the GET fallback itself fails at
the transport level. -/
theorem c2_amended_probe_fallback {σ : Type} (t : Transport σ) (s0 : σ) (c : SAPClient) :
    (∀ s1 e, t.send s0 headProbe = (s1, TransportResult.err e) →
        refreshCSRFToken t s0 c =
          (s1, c, some (RefreshError.transport e),
            [Event.probe headProbe (TransportResult.err e)])) ∧
    (∀ s1 r1, t.send s0 headProbe = (s1, TransportResult.ok r1) → r1.isError = true →
        ∃ res, (refreshCSRFToken t s0 c).2.2.2 =
          [Event.probe headProbe (TransportResult.ok r1), Event.probe getProbe res]) ∧
    (∀ s1 r1 s2 e, t.send s0 headProbe = (s1, TransportResult.ok r1) → r1.isError = true →
        t.send s1 getProbe = (s2, TransportResult.err e) →
        refreshCSRFToken t s0 c =
          (s2, c, some (RefreshError.transport e),
            [Event.probe headProbe (TransportResult.ok r1),
             Event.probe getProbe (TransportResult.err e)])) ∧
    (∀ s1 r1 s2 r2, t.send s0 headProbe = (s1, TransportResult.ok r1) → r1.isError = true →
        t.send s1 getProbe = (s2, TransportResult.ok r2) → r2.isError = true →
        refreshCSRFToken t s0 c =
          (s2, c, some (RefreshError.status r2.status),
            [Event.probe headProbe (TransportResult.ok r1),
             Event.probe getProbe (TransportResult.ok r2)])) := by
  refine ⟨?_, ?_, ?_, ?_⟩
  · intro s1 e h1
    simp [refreshCSRFToken, h1]
  · intro s1 r1 h1 hE
    rcases h2 : t.send s1 getProbe with ⟨s2, tr2⟩
    refine ⟨tr2, ?_⟩
    cases tr2 with
    | err e => simp [refreshCSRFToken, h1, hE, h2]
    | ok r2 =>
        cases hE2 : r2.isError with
        | true => simp [refreshCSRFToken, h1, hE, h2, hE2]
        | false =>
            by_cases hT : headerGet r2.headers CSRFHeader = "" <;>
              simp [refreshCSRFToken, h1, hE, h2, hE2, storeFromProbe, hT]
  · intro s1 r1 s2 e h1 hE h2
    simp [refreshCSRFToken, h1, hE, h2]
  · intro s1 r1 s2 r2 h1 hE h2 hE2
    simp [refreshCSRFToken, h1, hE, h2, hE2]

/-- A transport stub whose HEAD round trips return an error status while
GET round trips succeed with a token. -/
def resp405 : Response := { status := 405, headers := [], cookies := [] }

def headErrorStatusT : Transport Unit :=
  { send := fun s r =>
      if r.method = headProbe.method then (s, TransportResult.ok resp405)
      else (s, TransportResult.ok probe200Resp) }

/-- C2 witness: an error-status HEAD answer does trigger the GET
fallback. -/
theorem c2_amended_witness :
    ∃ res, (refreshCSRFToken headErrorStatusT () initialClient).2.2.2 =
      [Event.probe headProbe (TransportResult.ok resp405), Event.probe getProbe res] :=
  (c2_amended_probe_fallback headErrorStatusT () initialClient).2.1 () resp405 rfl rfl

/-- Store actions never change a reader's observation record. -/
theorem foldl_store_keeps_obs (l : List RWAction) (h : ∀ a ∈ l, a.isStore = true)
    (p : Shared × ReaderObs) : (l.foldl rwStep p).2 = p.2 := by
  induction l generalizing p with
  | nil => rfl
  | cons a l ih =>
      have ha := h a (List.mem_cons_self a l)
      have hl : ∀ x ∈ l, x.isStore = true := fun x hx => h x (List.mem_cons_of_mem a hx)
      cases a with
      | refreshStore tk ck =>
          rcases p with ⟨s, o⟩
          simpa [List.foldl_cons, rwStep] using ih hl ({ token := tk, cookies := ck }, o)
      | readCookies => simp [RWAction.isStore] at ha
      | readToken => simp [RWAction.isStore] at ha

def tokOld : String := "token-gen1"

def tokNew : String := "token-gen2"

def cookieOld : Cookie := { name := "SAP_SESSIONID", value := "old" }

def cookieNew : Cookie := { name := "SAP_SESSIONID", value := "new" }

/-- The pre-refresh generation of the shared state. -/
def genOneShared : Shared := { token := tokOld, cookies := [cookieOld] }

/-- The post-refresh generation of the shared state. -/
def genTwoShared : Shared := { token := tokNew, cookies := [cookieNew] }

/-- The interleaving in which the refresher's store (write lock, lines
137-166 of `client.go`) runs between the reader's cookie read
(`buildRequest`, lines 121-131) and token read (lines 76-78). -/
def mixedSchedule : List RWAction :=
  [RWAction.readCookies, RWAction.refreshStore tokNew [cookieNew], RWAction.readToken]

/-- C4 counterexample: under `mixedSchedule` the reader ends up holding
the cookies of generation 1 together with the token of generation 2 — an
observation that matches neither the all-old nor the all-new pair,
refuting the claim that every reader sees one whole generation.  The two
reads sit in two separate read-lock sections, so the refresher's single
atomic store can land between them. -/
theorem c4_counterexample :
    (rwRun genOneShared mixedSchedule).2.cookies = some [cookieOld] ∧
    (rwRun genOneShared mixedSchedule).2.token = some tokNew ∧
    ¬ consistentPair (rwRun genOneShared mixedSchedule).2 genOneShared ∧
    ¬ consistentPair (rwRun genOneShared mixedSchedule).2 genTwoShared := by
  refine ⟨rfl, rfl, ?_, ?_⟩ <;> simp [consistentPair, rwRun, mixedSchedule, rwStep,
    emptyObs, genOneShared, genTwoShared, tokOld, tokNew, cookieOld, cookieNew]

/-- C4 (amended): each single field read is atomic with respect to
refresh — when no refresh store lands between the reader's cookie read
and token read, the reader observes the complete `{token, cookies}` pair
of one generation (the shared state left by the refreshes that completed
before its reads); only a store interleaved between the two read-lock
sections can mix generations. -/
theorem c4_amended_snapshot_consistency (init : Shared) (pre post : List RWAction)
    (_hpre : ∀ a ∈ pre, a.isStore = true) (hpost : ∀ a ∈ post, a.isStore = true) :
    consistentPair
      (rwRun init (pre ++ RWAction.readCookies :: RWAction.readToken :: post)).2
      (rwRun init pre).1 := by
  rcases hp : rwRun init pre with ⟨s1, o1⟩
  have hsplit : rwRun init (pre ++ RWAction.readCookies :: RWAction.readToken :: post) =
      post.foldl rwStep (rwStep (rwStep (s1, o1) RWAction.readCookies) RWAction.readToken) := by
    rw [rwRun, List.foldl_append, ← rwRun, hp]
    simp [List.foldl_cons]
  have hobs := foldl_store_keeps_obs post hpost
    (rwStep (rwStep (s1, o1) RWAction.readCookies) RWAction.readToken)
  rw [hsplit]
  simp only [consistentPair]
  constructor <;> rw [hobs] <;> rfl

/-- C4 witness: a refresh completed entirely before the reads is observed
as a whole pair. -/
theorem c4_amended_witness :
    consistentPair
      (rwRun genOneShared ([RWAction.refreshStore tokNew [cookieNew]] ++
        RWAction.readCookies :: RWAction.readToken :: [])).2
      (rwRun genOneShared [RWAction.refreshStore tokNew [cookieNew]]).1 :=
  c4_amended_snapshot_consistency genOneShared
    [RWAction.refreshStore tokNew [cookieNew]] [] (by decide) (by decide)

/-- A successful refresh stores a non-empty token; a failed one changes
nothing. -/
theorem refresh_client_token {σ : Type} (t : Transport σ) (s0 : σ) (c : SAPClient) :
    (refreshCSRFToken t s0 c).2.1 = c ∨ (refreshCSRFToken t s0 c).2.1.csrfToken ≠ "" := by
  rcases refresh_spec t s0 c with ⟨-, h⟩
  rcases h with ⟨-, hc⟩ | ⟨-, req, r, -, -, hT, hc⟩
  · exact Or.inl hc
  · right
    rw [hc]
    simpa using hT

/-- `ExecuteRequest` either leaves the session state untouched or hands it
to a successful refresh, which stores a non-empty token. -/
theorem exec_client_token {σ : Type} (t : Transport σ) (s0 : σ) (c : SAPClient)
    (m u : String) (b : Option String) (qp : List (String × String)) :
    (executeRequest t s0 c m u b qp).2.1 = c ∨
    (executeRequest t s0 c m u b qp).2.1.csrfToken ≠ "" := by
  rcases h1 : t.send s0 (firstRequest c m u b qp) with ⟨s1, tr1⟩
  cases tr1 with
  | err e =>
      left
      simp [executeRequest, h1]
  | ok resp =>
      cases hn : needsRefresh m resp with
      | false =>
          left
          simp [executeRequest, h1, hn]
      | true =>
          rcases hr : refreshCSRFToken t s1 c with ⟨s2, c2, eo, probes⟩
          have hc2 := refresh_client_token t s1 c
          rw [hr] at hc2
          cases eo with
          | some e =>
              have hx : (executeRequest t s0 c m u b qp).2.1 = c2 := by
                simp [executeRequest, h1, hn, hr]
              rw [hx]
              simpa using hc2
          | none =>
              rcases h2 : t.send s2 (retryRequest c2 m u b qp) with ⟨s3, tr3⟩
              cases tr3 with
              | err e =>
                  have hx : (executeRequest t s0 c m u b qp).2.1 = c2 := by
                    simp [executeRequest, h1, hn, hr, h2]
                  rw [hx]
                  simpa using hc2
              | ok r2 =>
                  have hx : (executeRequest t s0 c m u b qp).2.1 = c2 := by
                    simp [executeRequest, h1, hn, hr, h2]
                  rw [hx]
                  simpa using hc2

/-- One public operation on a shared `SAPClient`, as a relation on the
session state it leaves behind. -/
inductive ClientStep : SAPClient → SAPClient → Prop where
  | exec {σ : Type} (t : Transport σ) (s0 : σ) (c : SAPClient) (m u : String)
      (b : Option String) (qp : List (String × String)) :
      ClientStep c (executeRequest t s0 c m u b qp).2.1
  | refresh {σ : Type} (t : Transport σ) (s0 : σ) (c : SAPClient) :
      ClientStep c (refreshCSRFToken t s0 c).2.1

/-- Session states reachable from `NewSAPClient` under any sequence of
`ExecuteRequest` / `RefreshCSRFToken` calls against any transports. -/
inductive ReachableClient : SAPClient → Prop where
  | init : ReachableClient initialClient
  | step {c c' : SAPClient} : ReachableClient c → ClientStep c c' → ReachableClient c'

/-- C10: every operation either leaves the session state exactly as it
was or ends with a non-empty token (stored by a successful refresh from a
probe response header); a successful refresh always stores a non-empty
token; no operation resets a non-empty token to empty; and the only
reachable state with an empty token is the initial one. -/
theorem c10_token_provenance :
    (∀ c c', ClientStep c c' → c' = c ∨ c'.csrfToken ≠ "") ∧
    (∀ (σ : Type) (t : Transport σ) (s0 : σ) (c : SAPClient),
        (refreshCSRFToken t s0 c).2.2.1 = none →
        (refreshCSRFToken t s0 c).2.1.csrfToken ≠ "") ∧
    (∀ c c', ClientStep c c' → c.csrfToken ≠ "" → c'.csrfToken ≠ "") ∧
    (∀ c, ReachableClient c → c.csrfToken = "" → c = initialClient) := by
  have hstep : ∀ c c', ClientStep c c' → c' = c ∨ c'.csrfToken ≠ "" := by
    intro c c' h
    cases h with
    | exec t s0 c m u b qp => exact exec_client_token t s0 c m u b qp
    | refresh t s0 c => exact refresh_client_token t s0 c
  have hsucc : ∀ (σ : Type) (t : Transport σ) (s0 : σ) (c : SAPClient),
      (refreshCSRFToken t s0 c).2.2.1 = none →
      (refreshCSRFToken t s0 c).2.1.csrfToken ≠ "" := by
    intro σ t s0 c hn
    rcases refresh_spec t s0 c with ⟨-, h⟩
    rcases h with ⟨hsome, -⟩ | ⟨-, req, r, -, -, hT, hc⟩
    · rw [hn] at hsome
      simp at hsome
    · rw [hc]
      simpa using hT
  have hmono : ∀ c c', ClientStep c c' → c.csrfToken ≠ "" → c'.csrfToken ≠ "" := by
    intro c c' h hne
    rcases hstep c c' h with h' | h'
    · rw [h']
      exact hne
    · exact h'
  refine ⟨hstep, hsucc, hmono, ?_⟩
  intro c hreach
  induction hreach with
  | init => intro _; rfl
  | step hr hs ih =>
      intro hemp
      rcases hstep _ _ hs with h' | h'
      · rw [h'] at hemp ⊢
        exact ih hemp
      · exact absurd hemp h'

/-- C10 witness: the invariant applied to one concrete refresh step. -/
theorem c10_token_provenance_witness :
    (refreshCSRFToken always403T () initialClient).2.1 = initialClient ∨
    (refreshCSRFToken always403T () initialClient).2.1.csrfToken ≠ "" :=
  c10_token_provenance.1 initialClient _ (ClientStep.refresh always403T () initialClient)

end OData
